import Mathlib

/-!
Verification of the point-of-sale transaction core (`app.py`).

The Python source is shallowly embedded: the SQLAlchemy tables become Lean
structures, the mutable database becomes an explicit `DB` value threaded
through each route handler, and each Flask handler relevant to the claims
becomes a pure Lean function from the database (plus the request data and
the current instant) to a result together with the updated database.
Python strings are Lean `String`s; Python `str`/`int`/`zfill`/`split` on
decimal bill numbers are modelled by executable decimal render/parse
functions below.
-/

namespace POS

deriving instance DecidableEq for Except

/-! ## Decimal strings: models of Python `str`, `int`, `zfill`, `split("-")[-1]` -/

/-- The character for a decimal digit `d < 10`, as produced by Python `str`. -/
def digitChar (d : Nat) : Char := Char.ofNat (48 + d)

/-- Little-endian decimal digits of `n` (empty for 0), fuel-based so that it
evaluates by kernel reduction. -/
def natDigitsAux : Nat → Nat → List Nat
  | 0, _ => []
  | _ + 1, 0 => []
  | fuel + 1, n => n % 10 :: natDigitsAux fuel (n / 10)

def natDigits (n : Nat) : List Nat := natDigitsAux n n

/-- Model of Python `str(n)` for a natural number `n`. -/
def natStr (n : Nat) : String :=
  if n = 0 then "0" else ⟨((natDigits n).map digitChar).reverse⟩

/-- Model of Python `int(s)` on a string of decimal digits. -/
def strToNat (s : String) : Nat :=
  s.data.foldl (fun a c => 10 * a + (c.toNat - 48)) 0

/-- Model of Python `s.zfill(w)`: left-pad with `'0'` to width `w`. -/
def zfill (w : Nat) (s : String) : String :=
  ⟨List.replicate (w - s.length) '0' ++ s.data⟩

/-- Model of Python `s.split("-")[-1]`: the segment after the last `'-'`
(the whole string when no `'-'` occurs). -/
def lastSeg (s : String) : String :=
  ⟨(s.data.reverse.takeWhile (fun c => c ≠ '-')).reverse⟩

/-- Model of the SQL pattern match `LIKE 'pat%'` used on bill numbers. -/
def likeP (pat s : String) : Bool := pat.data.isPrefixOf s.data

/-! ## Time and the business date (`get_business_date`, lines 500–508)

An instant is modelled by its calendar date (`day`, an absolute day index,
so that Python's `now - timedelta(days=1)` is `day - 1`), the calendar
`year` (read by `generate_bill_no`), and the local `hour`. -/

structure DateTime where
  day : Int
  year : Nat
  hour : Nat
deriving Repr, DecidableEq

/-- `get_business_date` (the later definition at lines 500–508 shadows the
earlier identical rule at 51–55): before local 15:00 the business date is
the previous calendar date, otherwise the current one. -/
def get_business_date (now : DateTime) : Int :=
  if now.hour < 15 then now.day - 1 else now.day

/-! ## Data model (the SQLAlchemy tables) -/

structure Menu where
  id : Nat
  name : String
  price : Int
deriving Repr, DecidableEq

structure Cart where
  id : Nat
  status : String
  staff_id : Option Nat
  customer_name : Option String
  customer_phone : Option String
  created_at : DateTime
deriving Repr, DecidableEq

structure CartItem where
  id : Nat
  cart_id : Nat
  menu_id : Option Nat
  quantity : Int
  custom_price : Option Int
  custom_name : Option String
deriving Repr, DecidableEq

/-- One row of the `items_json` snapshot stored on a sale. -/
structure SaleItem where
  name : String
  quantity : Int
  price : Int
  subtotal : Int
deriving Repr, DecidableEq

structure Sale where
  id : Nat
  bill_no : String
  subtotal : Int
  discount : Int
  total : Int
  items_json : List SaleItem
  payment_method : Option String
  customer_name : Option String
  customer_phone : Option String
  staff_id : Option Nat
  business_date : Int
  status : String
deriving Repr, DecidableEq

/-- The database: table contents in insertion (= primary-key) order, plus
the autoincrement counters. -/
structure DB where
  menus : List Menu
  carts : List Cart
  cart_items : List CartItem
  sales : List Sale
  next_cart_id : Nat
  next_item_id : Nat
  next_sale_id : Nat
deriving Repr, DecidableEq

/-- The menu row a cart item references (`i.menu` relationship). -/
def menuOf (db : DB) (i : CartItem) : Option Menu :=
  i.menu_id.bind (fun mid => db.menus.find? (fun m => m.id == mid))

/-- `price = i.custom_price if i.custom_price is not None else (i.menu.price if i.menu else 0)`. -/
def itemPrice (db : DB) (i : CartItem) : Int :=
  match i.custom_price with
  | some p => p
  | none =>
    match menuOf db i with
    | some m => m.price
    | none => 0

/-- `name = i.custom_name if i.custom_name else (i.menu.name if i.menu else "Custom Item")`;
note Python truthiness: an empty custom name falls through to the menu name. -/
def itemName (db : DB) (i : CartItem) : String :=
  let fallback :=
    match menuOf db i with
    | some m => m.name
    | none => "Custom Item"
  match i.custom_name with
  | some nm => if nm = "" then fallback else nm
  | none => fallback

/-! ## Bill number generator (`generate_bill_no`, lines 112–129) -/

/-- `order_by(Sale.id.desc()).first()` on the filtered query: the matching
sale with the greatest id. -/
def lastSaleMatching (sales : List Sale) (p : Sale → Bool) : Option Sale :=
  (sales.filter p).foldl
    (fun acc s =>
      match acc with
      | none => some s
      | some t => if t.id < s.id then some s else some t)
    none

def generate_bill_no (db : DB) (year : Nat) : String :=
  let pfx := "TLA-" ++ natStr year
  let last_sale := lastSaleMatching db.sales (fun s => likeP (pfx ++ "-") s.bill_no)
  let next_number :=
    match last_sale with
    | some s => strToNat (lastSeg s.bill_no) + 1
    | none => 1
  pfx ++ "-" ++ zfill 4 (natStr next_number)

/-! ## Route handlers

Each Flask handler relevant to the claims becomes a function taking the
database, the request payload / query parameters, and (where the handler
calls `datetime.now()` / `datetime.utcnow()`) the current instant. -/

/-- `/cart/create` (lines 403–414). `created_at` takes the column default,
the current instant. -/
def create_cart (db : DB) (staff_id : Option Nat) (now : DateTime) : Nat × DB :=
  (db.next_cart_id,
   { db with
      carts := db.carts ++ [{ id := db.next_cart_id, status := "ACTIVE",
                              staff_id := staff_id, customer_name := none,
                              customer_phone := none, created_at := now }],
      next_cart_id := db.next_cart_id + 1 })

/-- `/cart/add` (lines 416–429): unconditionally inserts a fresh `CartItem`
row with quantity 1. -/
def add_to_cart (db : DB) (cart_id : Nat) (menu_id : Option Nat)
    (custom_price : Option Int) (custom_name : Option String) : DB :=
  { db with
      cart_items := db.cart_items ++
        [{ id := db.next_item_id, cart_id := cart_id, menu_id := menu_id,
           quantity := 1, custom_price := custom_price, custom_name := custom_name }],
      next_item_id := db.next_item_id + 1 }

/-- `/cart/hold` (lines 512–523): sets HOLD and the customer fields only
when the cart exists and is ACTIVE; always responds ok. -/
def hold_cart (db : DB) (cart_id : Option Nat)
    (customer_name customer_phone : Option String) : DB :=
  match cart_id with
  | none => db
  | some cid =>
    { db with
        carts := db.carts.map (fun c =>
          if c.id == cid && c.status == "ACTIVE" then
            { c with status := "HOLD", customer_name := customer_name,
                     customer_phone := customer_phone }
          else c) }

/-- `/cart/held` (lines 525–553): after 15:00 a non-admin gets an empty
list; otherwise all HOLD carts, restricted to the caller's own when a
non-admin supplies a user id. Read-only: the database is not touched. -/
def held_carts (db : DB) (role : Option String) (user_id : Option Nat)
    (now : DateTime) : List Cart :=
  if 15 ≤ now.hour ∧ role ≠ some "admin" then []
  else
    let q := db.carts.filter (fun c => c.status == "HOLD")
    if role ≠ some "admin" ∧ user_id ≠ none then
      q.filter (fun c => c.staff_id == user_id)
    else q

inductive ResumeErr where
  | holdExpired
  | notFound
deriving Repr, DecidableEq

structure ResumeOk where
  cart_id : Nat
  customer_name : Option String
  customer_phone : Option String
deriving Repr, DecidableEq

/-- `/cart/resume/<cart_id>` (lines 555–577): after 15:00 a non-admin gets
"Hold expired" (403) with no state change; otherwise a HOLD cart is set
ACTIVE, and anything else is "Not found" (404). -/
def resume_cart (db : DB) (cart_id : Nat) (role : Option String)
    (now : DateTime) : Except ResumeErr ResumeOk × DB :=
  if 15 ≤ now.hour ∧ role ≠ some "admin" then
    (Except.error ResumeErr.holdExpired, db)
  else
    match db.carts.find? (fun c => c.id == cart_id) with
    | some cart =>
      if cart.status = "HOLD" then
        (Except.ok { cart_id := cart.id, customer_name := cart.customer_name,
                     customer_phone := cart.customer_phone },
         { db with
            carts := db.carts.map (fun x =>
              if x.id == cart_id then { x with status := "ACTIVE" } else x) })
      else (Except.error ResumeErr.notFound, db)
    | none => (Except.error ResumeErr.notFound, db)

inductive VoidResult where
  | notFound
  | alreadyVoid
  | ok
deriving Repr, DecidableEq

/-- `/admin/sale/void` (lines 192–208). -/
def admin_void_sale (db : DB) (sale_id : Option Nat) : VoidResult × DB :=
  match sale_id with
  | none => (VoidResult.notFound, db)
  | some sid =>
    match db.sales.find? (fun s => s.id == sid) with
    | none => (VoidResult.notFound, db)
    | some sale =>
      if sale.status = "VOID" then (VoidResult.alreadyVoid, db)
      else
        (VoidResult.ok,
         { db with
            sales := db.sales.map (fun s =>
              if s.id == sid then { s with status := "VOID" } else s) })

inductive DeleteHoldResult where
  | notFound
  | notAHold
  | deleted
deriving Repr, DecidableEq

/-- `/admin/hold/delete/<cart_id>` (lines 470–491): deletes a HOLD cart and
its items. -/
def admin_delete_hold (db : DB) (cart_id : Nat) : DeleteHoldResult × DB :=
  match db.carts.find? (fun c => c.id == cart_id) with
  | none => (DeleteHoldResult.notFound, db)
  | some cart =>
    if cart.status ≠ "HOLD" then (DeleteHoldResult.notAHold, db)
    else
      (DeleteHoldResult.deleted,
       { db with
          cart_items := db.cart_items.filter (fun i => !(i.cart_id == cart_id)),
          carts := db.carts.filter (fun c => !(c.id == cart_id)) })

/-! ## Checkout (lines 582–645) -/

inductive ApiErr where
  | cartIdMissing
  | cartEmpty
deriving Repr, DecidableEq

structure CheckoutReq where
  cart_id : Option Nat
  discount : Option Int
  payment_method : Option String
  customer_name : Option String
  customer_phone : Option String
  transaction_id : Option String
  staff_id : Option Nat
deriving Repr, DecidableEq

structure CheckoutOk where
  subtotal : Int
  discount : Int
  total : Int
  bill_no : String
  sale_id : Nat
deriving Repr, DecidableEq

/-- `/checkout`: `int(d.get("discount") or 0)`; `if not cart_id` (so the
Python-falsy id 0 also counts as missing); `if not items`; then the sale is
built with `final_total = max(subtotal - discount, 0)` and the cart —
whatever its current status — is set to PAID. No validation of customer
name, phone, staff id or transaction reference occurs, and the cart's
status is never read. -/
def checkout (db : DB) (d : CheckoutReq) (now : DateTime) :
    Except ApiErr CheckoutOk × DB :=
  let discount := d.discount.getD 0
  match d.cart_id with
  | none => (Except.error ApiErr.cartIdMissing, db)
  | some cart_id =>
    if cart_id = 0 then (Except.error ApiErr.cartIdMissing, db)
    else
      let items := db.cart_items.filter (fun i => i.cart_id == cart_id)
      if items.isEmpty then (Except.error ApiErr.cartEmpty, db)
      else
        let subtotal := (items.map (fun i => itemPrice db i * i.quantity)).sum
        let items_data := items.map (fun i =>
          { name := itemName db i, quantity := i.quantity,
            price := itemPrice db i,
            subtotal := itemPrice db i * i.quantity : SaleItem })
        let final_total := max (subtotal - discount) 0
        let bill_no := generate_bill_no db now.year
        let sale : Sale :=
          { id := db.next_sale_id, bill_no := bill_no, subtotal := subtotal,
            discount := discount, total := final_total,
            items_json := items_data, payment_method := d.payment_method,
            customer_name := d.customer_name,
            customer_phone := d.customer_phone, staff_id := d.staff_id,
            business_date := get_business_date now, status := "COMPLETED" }
        (Except.ok { subtotal := subtotal, discount := discount,
                     total := final_total, bill_no := bill_no,
                     sale_id := sale.id },
         { db with
            sales := db.sales ++ [sale],
            carts := db.carts.map (fun c =>
              if c.id == cart_id then { c with status := "PAID" } else c),
            next_sale_id := db.next_sale_id + 1 })

/-! ## Reporting reads -/

/-- `/staff/report/cash-summary` (lines 165–187): sums `total` over the
staff member's sales of the current business date whose payment method is
CASH — with no restriction on sale status. -/
def staff_cash_summary (db : DB) (staff_id : Option Nat) (now : DateTime) : Int :=
  match staff_id with
  | none => 0
  | some sid =>
    let business_date := get_business_date now
    let sales := db.sales.filter
      (fun s => s.staff_id == some sid && s.business_date == business_date)
    sales.foldl
      (fun acc s => if s.payment_method == some "CASH" then acc + s.total else acc) 0

structure DashboardData where
  today_total : Int
  today_bills : Nat
  hold_count : Nat
deriving Repr, DecidableEq

/-- `/admin/dashboard` (lines 248–274), the parts expressible over the
day-indexed date model (the monthly figures extract the calendar month of
`business_date`, outside this date model): today's sales are filtered by
business date only — no sale-status restriction. -/
def admin_dashboard (db : DB) (now : DateTime) : DashboardData :=
  let today := get_business_date now
  let today_sales := db.sales.filter (fun s => s.business_date == today)
  { today_total := (today_sales.map (fun s => s.total)).sum,
    today_bills := today_sales.length,
    hold_count := (db.carts.filter (fun c => c.status == "HOLD")).length }

structure ReportData where
  bill_count : Nat
  total_amount : Int
  total_discount : Int
deriving Repr, DecidableEq

/-- `/admin/report/daily` (lines 705–729): restricted to COMPLETED sales of
the requested business date, optionally one staff member's. -/
def admin_daily_report (db : DB) (business_date : Int) (staff_id : Option Nat) :
    ReportData :=
  let q : List Sale := db.sales.filter
    (fun s => s.business_date == business_date && s.status == "COMPLETED")
  let q : List Sale :=
    match staff_id with
    | some sid => q.filter (fun s => s.staff_id == some sid)
    | none => q
  { bill_count := q.length,
    total_amount := (q.map (fun s => s.total)).sum,
    total_discount := (q.map (fun s => s.discount)).sum }

/-! ## Operations and reachability

`Op` packages one invocation of each state-mutating handler; `Reachable`
is the set of database states produced by any sequence of them from the
freshly initialised database (`init_db`, lines 1417–1451, restricted to
the tables the core touches). -/

inductive Op where
  | createCart (staff_id : Option Nat) (now : DateTime)
  | addToCart (cart_id : Nat) (menu_id : Option Nat)
      (custom_price : Option Int) (custom_name : Option String)
  | holdCart (cart_id : Option Nat) (customer_name customer_phone : Option String)
  | resumeCart (cart_id : Nat) (role : Option String) (now : DateTime)
  | doCheckout (d : CheckoutReq) (now : DateTime)
  | voidSale (sale_id : Option Nat)
  | deleteHold (cart_id : Nat)

def applyOp (db : DB) : Op → DB
  | Op.createCart sid now => (create_cart db sid now).2
  | Op.addToCart cid mid cp cn => add_to_cart db cid mid cp cn
  | Op.holdCart cid nm ph => hold_cart db cid nm ph
  | Op.resumeCart cid role now => (resume_cart db cid role now).2
  | Op.doCheckout d now => (checkout db d now).2
  | Op.voidSale sid => (admin_void_sale db sid).2
  | Op.deleteHold cid => (admin_delete_hold db cid).2

/-- The database as `init_db` leaves it: the default menu, no carts, no
items, no sales. -/
def initDB : DB :=
  { menus := [{ id := 1, name := "Full Set", price := 580 },
              { id := 2, name := "Half Set", price := 300 },
              { id := 3, name := "Three Tickets", price := 150 },
              { id := 4, name := "Custom Amount", price := 0 }],
    carts := [], cart_items := [], sales := [],
    next_cart_id := 1, next_item_id := 1, next_sale_id := 1 }

inductive Reachable : DB → Prop where
  | init : Reachable initDB
  | step {db : DB} (op : Op) : Reachable db → Reachable (applyOp db op)

/-! ## Derived notions used by the claims -/

/-- Value of a little-endian decimal digit list. -/
def ofLE : List Nat → Nat
  | [] => 0
  | d :: ds => d + 10 * ofLE ds

/-- The bill string the generator produces for year `y`, sequence `n`. -/
def renderBill (y n : Nat) : String :=
  "TLA-" ++ natStr y ++ "-" ++ zfill 4 (natStr n)

/-- The sequence numbers of the sales carrying year-`y` bill numbers, in
table (= issuance) order. -/
def billSeqs (db : DB) (y : Nat) : List Nat :=
  (db.sales.filter (fun s => likeP ("TLA-" ++ natStr y ++ "-") s.bill_no)).map
    (fun s => strToNat (lastSeg s.bill_no))

/-- The cart-status transitions the code can actually perform in one
operation: no change, ACTIVE→HOLD (hold), HOLD→ACTIVE (resume), or
anything→PAID (checkout). -/
def statusStep (old new : String) : Prop :=
  new = old ∨ (old = "ACTIVE" ∧ new = "HOLD") ∨
    (old = "HOLD" ∧ new = "ACTIVE") ∨ new = "PAID"

/-- Invariant maintained by every operation: bill numbers are
generator-rendered, sale ids ascend in table order and stay below the
autoincrement counter, and each year's sequence numbers read `1, …, k`. -/
structure BillInv (db : DB) : Prop where
  wf : ∀ s ∈ db.sales, ∃ y n, s.bill_no = renderBill y n
  idlt : ∀ s ∈ db.sales, s.id < db.next_sale_id
  sorted : db.sales.Pairwise (fun s t => s.id < t.id)
  seqs : ∀ y, ∃ k, billSeqs db y = List.range' 1 k

/-! ## Concrete fixtures -/

def nowD : DateTime := { day := 100, year := 2024, hour := 16 }

def saleC1 : Sale :=
  { id := 1, bill_no := "TLA-2024-0001", subtotal := 580, discount := 0,
    total := 580, items_json := [], payment_method := some "CASH",
    customer_name := some "A", customer_phone := some "9876543210",
    staff_id := some 5, business_date := 100, status := "COMPLETED" }

/-- A cart that has already been checked out (status PAID, a sale on file,
its items still present — checkout never clears them). -/
def dbC1 : DB :=
  { initDB with
      carts := [{ id := 1, status := "PAID", staff_id := some 5,
                  customer_name := none, customer_phone := none,
                  created_at := nowD }],
      cart_items := [{ id := 1, cart_id := 1, menu_id := some 1, quantity := 1,
                       custom_price := none, custom_name := none }],
      sales := [saleC1],
      next_cart_id := 2, next_item_id := 2, next_sale_id := 2 }

def reqC1 : CheckoutReq :=
  { cart_id := some 1, discount := none, payment_method := some "CASH",
    customer_name := some "B", customer_phone := some "9876543210",
    transaction_id := none, staff_id := some 5 }

/-- An ACTIVE cart holding one custom line priced 10. -/
def dbC2 : DB :=
  { initDB with
      carts := [{ id := 1, status := "ACTIVE", staff_id := some 5,
                  customer_name := none, customer_phone := none,
                  created_at := nowD }],
      cart_items := [{ id := 1, cart_id := 1, menu_id := none, quantity := 1,
                       custom_price := some 10, custom_name := some "X" }],
      next_cart_id := 2, next_item_id := 2 }

def reqC2 : CheckoutReq :=
  { cart_id := some 1, discount := some 20, payment_method := some "CASH",
    customer_name := some "B", customer_phone := some "9876543210",
    transaction_id := none, staff_id := some 5 }

/-- An ACTIVE cart with two lines referencing menu item 1 (price 580). -/
def dbC2b : DB :=
  { initDB with
      carts := [{ id := 1, status := "ACTIVE", staff_id := some 5,
                  customer_name := none, customer_phone := none,
                  created_at := nowD }],
      cart_items := [{ id := 1, cart_id := 1, menu_id := some 1, quantity := 1,
                       custom_price := none, custom_name := none },
                     { id := 2, cart_id := 1, menu_id := some 1, quantity := 1,
                       custom_price := none, custom_name := none }],
      next_cart_id := 2, next_item_id := 3 }

def reqC2b : CheckoutReq :=
  { cart_id := some 1, discount := some 100, payment_method := some "CASH",
    customer_name := some "B", customer_phone := some "9876543210",
    transaction_id := none, staff_id := some 5 }

def dbC3 : DB := dbC2b

/-- Every input the spec says must be rejected: blank customer name, a
2-digit phone, no staff id, payment UPI with no transaction reference, and
a negative requested discount. -/
def reqC3 : CheckoutReq :=
  { cart_id := some 1, discount := some (-5), payment_method := some "UPI",
    customer_name := some "", customer_phone := some "12",
    transaction_id := none, staff_id := none }

/-- A cart on HOLD whose items are still present. -/
def dbC5 : DB :=
  { initDB with
      carts := [{ id := 1, status := "HOLD", staff_id := some 5,
                  customer_name := some "N", customer_phone := some "9876543210",
                  created_at := nowD }],
      cart_items := [{ id := 1, cart_id := 1, menu_id := some 1, quantity := 1,
                       custom_price := none, custom_name := none }],
      next_cart_id := 2, next_item_id := 2 }

def reqC5 : CheckoutReq :=
  { cart_id := some 1, discount := some 0, payment_method := some "CASH",
    customer_name := some "B", customer_phone := some "9876543210",
    transaction_id := none, staff_id := some 5 }

def dbC5w : DB :=
  { initDB with
      carts := [{ id := 1, status := "ACTIVE", staff_id := some 5,
                  customer_name := none, customer_phone := none,
                  created_at := nowD }],
      next_cart_id := 2 }

/-- The cart of `dbC5w` after `hold_cart` stamps it. -/
def cartHoldW : Cart :=
  { id := 1, status := "HOLD", staff_id := some 5,
    customer_name := some "N", customer_phone := some "9876543210",
    created_at := nowD }

/-- Held at hour 10 of day 100, so on business day 99. -/
def cartC6 : Cart :=
  { id := 1, status := "HOLD", staff_id := some 5,
    customer_name := some "N", customer_phone := some "9876543210",
    created_at := { day := 100, year := 2024, hour := 10 } }

def dbC6 : DB :=
  { initDB with
      carts := [cartC6],
      cart_items := [{ id := 1, cart_id := 1, menu_id := some 1, quantity := 1,
                       custom_price := none, custom_name := none }],
      next_cart_id := 2, next_item_id := 2 }

/-- The next calendar day at hour 10: business day 100, one business day
after the cart was held. -/
def now6 : DateTime := { day := 101, year := 2024, hour := 10 }

/-- A PAID cart that already holds a line referencing menu item 1. -/
def dbC7 : DB :=
  { initDB with
      carts := [{ id := 1, status := "PAID", staff_id := some 5,
                  customer_name := none, customer_phone := none,
                  created_at := nowD }],
      cart_items := [{ id := 1, cart_id := 1, menu_id := some 1, quantity := 1,
                       custom_price := none, custom_name := none }],
      next_cart_id := 2, next_item_id := 2 }

/-- One VOID cash sale of 100 on business date 100 by staff 7. -/
def dbC9 : DB :=
  { initDB with
      sales := [{ id := 1, bill_no := "TLA-2024-0001", subtotal := 100,
                  discount := 0, total := 100, items_json := [],
                  payment_method := some "CASH", customer_name := some "A",
                  customer_phone := some "9876543210", staff_id := some 7,
                  business_date := 100, status := "VOID" }],
      next_sale_id := 2 }

/-- An ACTIVE cart with one custom line priced 7, checked out with a
negative requested discount. -/
def dbC10 : DB :=
  { initDB with
      carts := [{ id := 1, status := "ACTIVE", staff_id := some 5,
                  customer_name := none, customer_phone := none,
                  created_at := nowD }],
      cart_items := [{ id := 1, cart_id := 1, menu_id := none, quantity := 1,
                       custom_price := some 7, custom_name := some "X" }],
      next_cart_id := 2, next_item_id := 2 }

def reqC10 : CheckoutReq :=
  { cart_id := some 1, discount := some (-5), payment_method := some "CASH",
    customer_name := some "B", customer_phone := some "9876543210",
    transaction_id := none, staff_id := some 5 }

def reqT : CheckoutReq :=
  { cart_id := some 1, discount := some 0, payment_method := some "CASH",
    customer_name := some "B", customer_phone := some "9876543210",
    transaction_id := none, staff_id := some 5 }

/-- A five-operation trace: create a cart, add a line, check out, add
another line, check out again (the code happily checks out the cart a
second time, drawing the next bill number). -/
def dbT1 : DB := applyOp initDB (Op.createCart (some 5) nowD)

def dbT2 : DB := applyOp dbT1 (Op.addToCart 1 (some 1) none none)

def dbT3 : DB := applyOp dbT2 (Op.doCheckout reqT nowD)

def dbT4 : DB := applyOp dbT3 (Op.addToCart 1 (some 2) none none)

def dbT5 : DB := applyOp dbT4 (Op.doCheckout reqT nowD)

/-! # Claim theorems -/

/-- C8: `get_business_date` maps every instant strictly before local 15:00
to the previous calendar date and every instant at or after 15:00 to the
current calendar date; in particular 14:59:59 (hour 14) and 15:00:00
(hour 15) on the same calendar date get different business-day labels. -/
theorem get_business_date_spec (dt : DateTime) :
    (dt.hour < 15 → get_business_date dt = dt.day - 1) ∧
    (15 ≤ dt.hour → get_business_date dt = dt.day) ∧
    get_business_date { dt with hour := 14 } ≠ get_business_date { dt with hour := 15 } := by
  refine ⟨fun h => ?_, fun h => ?_, ?_⟩ <;> simp [get_business_date] <;> omega

theorem get_business_date_spec_witness :
    get_business_date { day := 200, year := 2025, hour := 14 } = 199 ∧
    get_business_date { day := 200, year := 2025, hour := 15 } = 200 := by
  have h14 := (get_business_date_spec { day := 200, year := 2025, hour := 14 }).1 (by decide)
  have h15 := (get_business_date_spec { day := 200, year := 2025, hour := 15 }).2.1 (by decide)
  exact ⟨by rw [h14]; decide, by rw [h15]⟩

/-- C10: a successful checkout persists exactly one new Sale, whose
discount is the raw requested value (`int(d.get("discount") or 0)`) and
whose total is `max(subtotal − discount, 0)` — hence never negative, even
when the request exceeds the subtotal or is itself negative. -/
theorem checkout_total_nonneg_spec (db : DB) (d : CheckoutReq) (now : DateTime)
    (res : CheckoutOk) (db' : DB)
    (h : checkout db d now = (Except.ok res, db')) :
    ∃ sale : Sale, db'.sales = db.sales ++ [sale] ∧
      sale.discount = d.discount.getD 0 ∧
      sale.total = max (sale.subtotal - sale.discount) 0 ∧
      0 ≤ sale.total := by
  unfold checkout at h
  rcases hcid : d.cart_id with _ | cid <;> rw [hcid] at h
  · simp at h
  · by_cases h0 : cid = 0
    · simp [h0] at h
    · simp only [h0, if_false] at h
      by_cases hemp : (db.cart_items.filter (fun i => i.cart_id == cid)).isEmpty
      · simp [hemp] at h
      · rw [Bool.not_eq_true] at hemp
        simp only [hemp, Bool.false_eq_true, if_false] at h
        rw [Prod.mk.injEq] at h
        obtain ⟨h1, h2⟩ := h
        subst h2
        exact ⟨_, rfl, rfl, rfl, le_max_right _ _⟩

theorem checkout_total_nonneg_spec_witness :
    ∃ sale : Sale, (checkout dbC10 reqC10 nowD).2.sales = dbC10.sales ++ [sale] ∧
      sale.discount = reqC10.discount.getD 0 ∧
      sale.total = max (sale.subtotal - sale.discount) 0 ∧
      0 ≤ sale.total :=
  checkout_total_nonneg_spec dbC10 reqC10 nowD
    { subtotal := 7, discount := -5, total := 12, bill_no := "TLA-2024-0001", sale_id := 1 }
    (checkout dbC10 reqC10 nowD).2 (by decide)

/-- C2 counterexample: checking out a cart with subtotal 10 and requested
discount 20 persists `discount = 20 > 10 = subtotal` and
`total = 0 ≠ subtotal − discount`: the code stores the requested discount
unclamped, so the claimed invariant `0 ≤ discount ≤ subtotal ∧
total = subtotal − discount` fails. -/
theorem checkout_discount_unclamped :
    ((checkout dbC2 reqC2 nowD).2.sales.map (fun s => (s.subtotal, s.discount, s.total))) =
      [((10 : Int), (20 : Int), (0 : Int))] ∧
    ¬ ((20 : Int) ≤ 10 ∧ (0 : Int) = 10 - 20) := by decide

/-- C2 amended: the persisted discount equals the raw requested value `r`
(no clamping to `min(r, subtotal)` happens), the total is
`max(subtotal − r, 0)`, and the claimed relations `total = subtotal −
discount` and `discount ≤ subtotal` hold exactly when `r ≤ subtotal`. -/
theorem checkout_discount_spec (db : DB) (d : CheckoutReq) (now : DateTime)
    (r : Int) (hr : d.discount = some r) (h0 : 0 ≤ r)
    (res : CheckoutOk) (db' : DB)
    (h : checkout db d now = (Except.ok res, db')) :
    ∃ sale : Sale, db'.sales = db.sales ++ [sale] ∧
      sale.discount = r ∧
      sale.total = max (sale.subtotal - r) 0 ∧
      (r ≤ sale.subtotal →
        sale.total = sale.subtotal - sale.discount ∧
        0 ≤ sale.discount ∧ sale.discount ≤ sale.subtotal) := by
  unfold checkout at h
  rcases hcid : d.cart_id with _ | cid <;> rw [hcid] at h
  · simp at h
  · by_cases hz : cid = 0
    · simp [hz] at h
    · simp only [hz, if_false] at h
      by_cases hemp : (db.cart_items.filter (fun i => i.cart_id == cid)).isEmpty
      · simp [hemp] at h
      · rw [Bool.not_eq_true] at hemp
        simp only [hemp, Bool.false_eq_true, if_false] at h
        rw [Prod.mk.injEq] at h
        obtain ⟨h1, h2⟩ := h
        subst h2
        refine ⟨_, rfl, by simp [hr], by simp [hr], fun hrs => ?_⟩
        simp only [hr, Option.getD_some] at hrs ⊢
        exact ⟨max_eq_left (sub_nonneg.mpr hrs), h0, hrs⟩

theorem checkout_discount_spec_witness :
    ∃ sale : Sale, (checkout dbC2b reqC2b nowD).2.sales = dbC2b.sales ++ [sale] ∧
      sale.discount = 100 ∧
      sale.total = max (sale.subtotal - 100) 0 ∧
      (100 ≤ sale.subtotal →
        sale.total = sale.subtotal - sale.discount ∧
        0 ≤ sale.discount ∧ sale.discount ≤ sale.subtotal) :=
  checkout_discount_spec dbC2b reqC2b nowD 100 rfl (by decide)
    { subtotal := 1160, discount := 100, total := 1060,
      bill_no := "TLA-2024-0001", sale_id := 1 }
    (checkout dbC2b reqC2b nowD).2 (by decide)

/-- C3 counterexample: a checkout whose inputs violate every rule the
claim lists — blank customer name, 2-digit phone, missing staff id,
payment UPI with no transaction reference, negative requested discount —
succeeds and persists a Sale instead of failing with ValidationError. -/
theorem checkout_skips_input_validation :
    reqC3.customer_name = some "" ∧ reqC3.customer_phone = some "12" ∧
    reqC3.staff_id = none ∧ reqC3.payment_method = some "UPI" ∧
    reqC3.transaction_id = none ∧ reqC3.discount = some (-5) ∧
    (checkout dbC3 reqC3 nowD).1.isOk = true ∧
    (checkout dbC3 reqC3 nowD).2.sales.length = dbC3.sales.length + 1 := by decide

/-- C3 amended: checkout succeeds exactly when a non-zero cart id is
supplied and the cart has at least one item; no other input — customer
name, phone, staff id, transaction reference, or discount sign — is
validated. -/
theorem checkout_validation_spec (db : DB) (d : CheckoutReq) (now : DateTime) :
    (checkout db d now).1.isOk = true ↔
      ∃ cid, d.cart_id = some cid ∧ cid ≠ 0 ∧
        db.cart_items.filter (fun i => i.cart_id == cid) ≠ [] := by
  unfold checkout
  rcases hcid : d.cart_id with _ | cid
  · simp [Except.isOk, Except.toBool]
  · by_cases hz : cid = 0
    · simp [hz, Except.isOk, Except.toBool]
    · by_cases hemp : db.cart_items.filter (fun i => i.cart_id == cid) = []
      · simp only [hz, if_false, hemp, List.isEmpty_nil, if_true]
        rw [List.filter_eq_nil_iff] at hemp
        simp [hz, Except.isOk, Except.toBool]
        simpa using hemp
      · simp only [List.isEmpty_eq_true, hemp, if_false]
        rw [List.filter_eq_nil_iff] at hemp
        push_neg at hemp
        simp [hz, Except.isOk, Except.toBool, List.filter_eq_nil_iff]
        simpa using hemp

theorem checkout_validation_spec_witness :
    (checkout dbC3 reqC3 nowD).1.isOk = true :=
  (checkout_validation_spec dbC3 reqC3 nowD).mpr ⟨1, rfl, by decide, by decide⟩

/-- C1 counterexample: `dbC1`'s only cart is already PAID (with a prior
sale on file), yet a second checkout succeeds, draws the next bill number
and appends a second Sale — instead of failing with InvalidStateError. -/
theorem checkout_paid_cart_succeeds :
    (dbC1.carts.map (fun c => c.status)) = ["PAID"] ∧
    (checkout dbC1 reqC1 nowD).1.isOk = true ∧
    (checkout dbC1 reqC1 nowD).2.sales.length = 2 ∧
    ((checkout dbC1 reqC1 nowD).2.sales.map (fun s => s.bill_no)) =
      ["TLA-2024-0001", "TLA-2024-0002"] := by decide

/-- C1 amended: checkout never loads the cart or inspects its status. A
missing (or Python-falsy 0) cart id fails with "Cart ID missing"; a cart
id with no item rows — including a nonexistent cart — fails with "Cart
empty"; in every other case, whatever the cart's status (including PAID),
the checkout succeeds, appends one Sale, and (re)sets the cart to PAID. -/
theorem checkout_no_status_check (db : DB) (d : CheckoutReq) (now : DateTime) :
    (d.cart_id = none ∨ d.cart_id = some 0 →
        checkout db d now = (Except.error ApiErr.cartIdMissing, db)) ∧
    (∀ cid, d.cart_id = some cid → cid ≠ 0 →
        (db.cart_items.filter (fun i => i.cart_id == cid) = [] →
            checkout db d now = (Except.error ApiErr.cartEmpty, db)) ∧
        (db.cart_items.filter (fun i => i.cart_id == cid) ≠ [] →
            (checkout db d now).1.isOk = true ∧
            (checkout db d now).2.sales.length = db.sales.length + 1 ∧
            (checkout db d now).2.carts = db.carts.map (fun c =>
              if c.id == cid then { c with status := "PAID" } else c))) := by
  constructor
  · rintro (hc | hc) <;> simp [checkout, hc]
  · intro cid hc hz
    constructor
    · intro hemp
      simp [checkout, hc, hz, hemp]
    · intro hemp
      unfold checkout
      rw [hc]
      simp only [hz, if_false]
      have hne : (db.cart_items.filter (fun i => i.cart_id == cid)).isEmpty = false := by
        simp [List.isEmpty_eq_false, hemp]
      simp only [hne, Bool.false_eq_true, if_false]
      simp [Except.isOk, Except.toBool]

theorem checkout_no_status_check_witness :
    (checkout dbC1 reqC1 nowD).1.isOk = true ∧
    (checkout dbC1 reqC1 nowD).2.sales.length = dbC1.sales.length + 1 ∧
    (checkout dbC1 reqC1 nowD).2.carts = dbC1.carts.map (fun c =>
      if c.id == 1 then { c with status := "PAID" } else c) :=
  ((checkout_no_status_check dbC1 reqC1 nowD).2 1 rfl (by decide)).2 (by decide)

/-- C7 counterexample: the cart is PAID (not ACTIVE), yet adding a line
referencing menu item 1 — which the cart already carries — succeeds and
appends a second quantity-1 row rather than failing or incrementing the
existing line. -/
theorem add_to_cart_no_merge_no_state_check :
    (dbC7.carts.map (fun c => c.status)) = ["PAID"] ∧
    ((add_to_cart dbC7 1 (some 1) none none).cart_items.map
      (fun i => (i.cart_id, i.menu_id, i.quantity))) =
      [(1, some 1, (1 : Int)), (1, some 1, (1 : Int))] := by decide

/-- C7 amended: `add_to_cart` unconditionally appends one fresh line with
quantity 1 — it never consults the cart's status and never merges with an
existing catalog-referenced line; carts and sales are untouched. -/
theorem add_to_cart_spec (db : DB) (cid : Nat) (mid : Option Nat)
    (cp : Option Int) (cn : Option String) :
    ∃ it : CartItem,
      (add_to_cart db cid mid cp cn).cart_items = db.cart_items ++ [it] ∧
      it.quantity = 1 ∧ it.cart_id = cid ∧ it.menu_id = mid ∧
      (add_to_cart db cid mid cp cn).carts = db.carts ∧
      (add_to_cart db cid mid cp cn).sales = db.sales :=
  ⟨{ id := db.next_item_id, cart_id := cid, menu_id := mid, quantity := 1,
     custom_price := cp, custom_name := cn }, rfl, rfl, rfl, rfl, rfl, rfl⟩

theorem foldl_cash_sum (l : List Sale) (p : Sale → Bool) (acc : Int) :
    l.foldl (fun acc s => if p s then acc + s.total else acc) acc
      = acc + ((l.filter p).map (fun s => s.total)).sum := by
  induction l generalizing acc with
  | nil => simp
  | cons s ls ih =>
    by_cases h : p s
    · simp [h, ih]; ring
    · simp [h, ih]

/-- C9 counterexample: with a single VOID cash sale of 100 on today's
business date, the daily report (COMPLETED-only) reports 0, but the
dashboard's today total and the staff expected-cash summary both report
100 — the VOID sale is counted, contradicting "VOID sales are excluded
from every aggregate". -/
theorem void_sale_counted_in_dashboard :
    (dbC9.sales.map (fun s => s.status)) = ["VOID"] ∧
    (admin_dashboard dbC9 nowD).today_total = 100 ∧
    staff_cash_summary dbC9 (some 7) nowD = 100 ∧
    (admin_daily_report dbC9 (get_business_date nowD) none).total_amount = 0 := by decide

/-- C9 amended: only the daily report restricts to COMPLETED sales; the
dashboard's today total and the staff expected-cash summary sum over all
sales of the business date — VOID included — with no status filter. -/
theorem aggregates_status_spec (db : DB) (bd : Int) (sid : Nat) (now : DateTime) :
    (admin_daily_report db bd none).total_amount =
      ((db.sales.filter (fun s => s.business_date == bd && s.status == "COMPLETED")).map
        (fun s => s.total)).sum ∧
    (admin_dashboard db now).today_total =
      ((db.sales.filter (fun s => s.business_date == get_business_date now)).map
        (fun s => s.total)).sum ∧
    staff_cash_summary db (some sid) now =
      (((db.sales.filter (fun s =>
          s.staff_id == some sid && s.business_date == get_business_date now)).filter
            (fun s => s.payment_method == some "CASH")).map (fun s => s.total)).sum := by
  refine ⟨rfl, rfl, ?_⟩
  unfold staff_cash_summary
  dsimp only
  rw [foldl_cash_sum]
  simp

theorem admin_void_sale_carts (db : DB) (sid : Option Nat) :
    ((admin_void_sale db sid).2).carts = db.carts := by
  unfold admin_void_sale
  rcases sid with _ | s
  · rfl
  · cases h : db.sales.find? (fun x => x.id == s) with
    | none => simp [h]
    | some sale =>
      simp only [h]
      split
      · rfl
      · rfl

/-- C5 counterexample: checkout moves a HOLD cart straight to PAID, a
transition the claimed state machine forbids (from HOLD only ACTIVE and
EXPIRED are allowed). -/
theorem hold_to_paid_via_checkout :
    (dbC5.carts.map (fun c => c.status)) = ["HOLD"] ∧
    (checkout dbC5 reqC5 nowD).1.isOk = true ∧
    ((checkout dbC5 reqC5 nowD).2.carts.map (fun c => c.status)) = ["PAID"] := by decide

/-- C5 amended: assuming distinct cart ids (the primary-key constraint),
every operation either leaves a cart's status unchanged, moves
ACTIVE→HOLD (hold), moves HOLD→ACTIVE (resume), or sets PAID from any
status (checkout, which never reads the old status); newly created carts
start ACTIVE. In particular no operation ever produces an EXPIRED status,
and a PAID cart's status can only be (re)written as PAID. -/
theorem cart_status_transition_spec (db : DB) (op : Op)
    (huniq : db.carts.Pairwise (fun a b => a.id ≠ b.id)) :
    ∀ c' ∈ (applyOp db op).carts,
      (∃ c ∈ db.carts, c'.id = c.id ∧ statusStep c.status c'.status) ∨
      c'.status = "ACTIVE" := by
  intro c' hc'
  cases op with
  | createCart sid now =>
    simp only [applyOp, create_cart] at hc'
    rcases List.mem_append.mp hc' with h | h
    · exact Or.inl ⟨c', h, rfl, Or.inl rfl⟩
    · simp at h; subst h; exact Or.inr rfl
  | addToCart cid mid cp cn =>
    exact Or.inl ⟨c', hc', rfl, Or.inl rfl⟩
  | holdCart cid nm ph =>
    simp only [applyOp, hold_cart] at hc'
    rcases cid with _ | cidv
    · exact Or.inl ⟨c', hc', rfl, Or.inl rfl⟩
    · rcases List.mem_map.mp hc' with ⟨c, hc, hfc⟩
      left
      refine ⟨c, hc, by rw [← hfc]; split <;> rfl, ?_⟩
      rw [← hfc]
      by_cases hg : (c.id == cidv && c.status == "ACTIVE") = true
      · rw [if_pos hg]
        have hst : c.status = "ACTIVE" := by
          simp only [Bool.and_eq_true, beq_iff_eq] at hg
          exact hg.2
        exact Or.inr (Or.inl ⟨hst, rfl⟩)
      · rw [if_neg hg]
        exact Or.inl rfl
  | resumeCart cid role now =>
    simp only [applyOp] at hc'
    unfold resume_cart at hc'
    by_cases hg : 15 ≤ now.hour ∧ role ≠ some "admin"
    · rw [if_pos hg] at hc'
      exact Or.inl ⟨c', hc', rfl, Or.inl rfl⟩
    · rw [if_neg hg] at hc'
      cases hf : db.carts.find? (fun c => c.id == cid) with
      | none =>
        rw [hf] at hc'
        exact Or.inl ⟨c', hc', rfl, Or.inl rfl⟩
      | some cart =>
        rw [hf] at hc'
        dsimp only at hc'
        by_cases hst : cart.status = "HOLD"
        · rw [if_pos hst] at hc'
          rcases List.mem_map.mp hc' with ⟨c, hc, hfc⟩
          left
          refine ⟨c, hc, by rw [← hfc]; split <;> rfl, ?_⟩
          rw [← hfc]
          by_cases hid : (c.id == cid) = true
          · rw [if_pos hid]
            have hcart_mem : cart ∈ db.carts := List.mem_of_find?_eq_some hf
            have hcart_id := List.find?_some hf
            have hceq : c = cart := by
              by_contra hne
              have h1 : c.id = cid := by simpa using hid
              have h2 : cart.id = cid := by simpa using hcart_id
              have hsym : Symmetric (fun a b : Cart => a.id ≠ b.id) :=
                fun _ _ h e => h e.symm
              exact (List.Pairwise.forall hsym huniq hc hcart_mem hne)
                (h1.trans h2.symm)
            exact Or.inr (Or.inr (Or.inl ⟨hceq ▸ hst, rfl⟩))
          · rw [if_neg hid]
            exact Or.inl rfl
        · rw [if_neg hst] at hc'
          exact Or.inl ⟨c', hc', rfl, Or.inl rfl⟩
  | doCheckout d now =>
    simp only [applyOp] at hc'
    unfold checkout at hc'
    rcases hdc : d.cart_id with _ | cid <;> rw [hdc] at hc'
    · exact Or.inl ⟨c', hc', rfl, Or.inl rfl⟩
    · by_cases hz : cid = 0
      · simp only [hz, if_true] at hc'
        exact Or.inl ⟨c', hc', rfl, Or.inl rfl⟩
      · simp only [hz, if_false] at hc'
        by_cases hemp : (db.cart_items.filter (fun i => i.cart_id == cid)).isEmpty
        · simp only [hemp, if_true] at hc'
          exact Or.inl ⟨c', hc', rfl, Or.inl rfl⟩
        · rw [Bool.not_eq_true] at hemp
          simp only [hemp, Bool.false_eq_true, if_false] at hc'
          rcases List.mem_map.mp hc' with ⟨c, hc, hfc⟩
          left
          refine ⟨c, hc, by rw [← hfc]; split <;> rfl, ?_⟩
          rw [← hfc]
          split
          · exact Or.inr (Or.inr (Or.inr rfl))
          · exact Or.inl rfl
  | voidSale sid =>
    simp only [applyOp, admin_void_sale_carts] at hc'
    exact Or.inl ⟨c', hc', rfl, Or.inl rfl⟩
  | deleteHold cid =>
    simp only [applyOp] at hc'
    unfold admin_delete_hold at hc'
    cases hf : db.carts.find? (fun c => c.id == cid) with
    | none =>
      rw [hf] at hc'
      exact Or.inl ⟨c', hc', rfl, Or.inl rfl⟩
    | some cart =>
      rw [hf] at hc'
      dsimp only at hc'
      by_cases hst : cart.status ≠ "HOLD"
      · rw [if_pos hst] at hc'
        exact Or.inl ⟨c', hc', rfl, Or.inl rfl⟩
      · rw [if_neg hst] at hc'
        exact Or.inl ⟨c', (List.mem_filter.mp hc').1, rfl, Or.inl rfl⟩

theorem cart_status_transition_spec_witness :
    (∃ c ∈ dbC5w.carts, cartHoldW.id = c.id ∧ statusStep c.status cartHoldW.status) ∨
      cartHoldW.status = "ACTIVE" :=
  cart_status_transition_spec dbC5w
    (Op.holdCart (some 1) (some "N") (some "9876543210"))
    (by simp [dbC5w]) cartHoldW (by decide)

/-- C6 counterexample: a cart held on business day 99 is resumed the
following business day (hour 10, so the 15:00/role gate does not fire) by
a non-admin: the resume succeeds and the cart becomes ACTIVE — it is never
set EXPIRED and no ExpiredError occurs — and `held_carts` still lists it. -/
theorem resume_across_business_days :
    get_business_date cartC6.created_at ≠ get_business_date now6 ∧
    (resume_cart dbC6 1 (some "staff") now6).1.isOk = true ∧
    ((resume_cart dbC6 1 (some "staff") now6).2.carts.map (fun c => c.status)) = ["ACTIVE"] ∧
    held_carts dbC6 (some "staff") (some 5) now6 = [cartC6] := by decide

/-- C6 amended: no business-date comparison occurs anywhere, and no cart
is ever set EXPIRED. When `now.hour ≥ 15` and the caller is not admin,
resume fails ("Hold expired", 403) without touching the cart and the
held-list is empty. Otherwise resume moves any HOLD cart to ACTIVE —
regardless of the business day it was created on — and the held-list
returns exactly the HOLD carts (restricted to the caller's own when a
non-admin supplies a user id), mutating nothing. -/
theorem resume_held_no_expiry_spec (db : DB) (cid : Nat) (role : Option String)
    (uid : Option Nat) (now : DateTime) :
    (15 ≤ now.hour ∧ role ≠ some "admin" →
        resume_cart db cid role now = (Except.error ResumeErr.holdExpired, db) ∧
        held_carts db role uid now = []) ∧
    (¬ (15 ≤ now.hour ∧ role ≠ some "admin") →
        (∀ cart, db.carts.find? (fun c => c.id == cid) = some cart →
            cart.status = "HOLD" →
            (resume_cart db cid role now).1 =
              Except.ok { cart_id := cart.id, customer_name := cart.customer_name,
                          customer_phone := cart.customer_phone } ∧
            (resume_cart db cid role now).2.carts =
              db.carts.map (fun x =>
                if x.id == cid then { x with status := "ACTIVE" } else x)) ∧
        (∀ c, c ∈ held_carts db role uid now ↔
            c ∈ db.carts ∧ c.status = "HOLD" ∧
            (role ≠ some "admin" → uid ≠ none → c.staff_id = uid))) := by
  constructor
  · intro hg
    exact ⟨by simp [resume_cart, hg], by simp [held_carts, hg]⟩
  · intro hg
    constructor
    · intro cart hf hst
      unfold resume_cart
      rw [if_neg hg, hf]
      dsimp only
      rw [if_pos hst]
      exact ⟨rfl, rfl⟩
    · intro c
      unfold held_carts
      rw [if_neg hg]
      by_cases hcond : role ≠ some "admin" ∧ uid ≠ none
      · rw [if_pos hcond]
        constructor
        · intro hcf
          have h1 := List.mem_filter.mp hcf
          have h2 := List.mem_filter.mp h1.1
          exact ⟨h2.1, by simpa using h2.2, fun _ _ => by simpa using h1.2⟩
        · rintro ⟨h1, h2, h3⟩
          exact List.mem_filter.mpr ⟨List.mem_filter.mpr ⟨h1, by simpa using h2⟩,
            by simpa using h3 hcond.1 hcond.2⟩
      · rw [if_neg hcond]
        rw [not_and] at hcond
        constructor
        · intro hcf
          exact ⟨(List.mem_filter.mp hcf).1,
            by simpa using (List.mem_filter.mp hcf).2,
            fun hA hB => absurd hB (hcond hA)⟩
        · rintro ⟨h1, h2, _⟩
          exact List.mem_filter.mpr ⟨h1, by simpa using h2⟩

/-! ## Decimal and bill-string lemmas (towards C4) -/

theorem ofLE_natDigitsAux (fuel : Nat) : ∀ n : Nat, n ≤ fuel → ofLE (natDigitsAux fuel n) = n := by
  induction fuel with
  | zero =>
    intro n hn
    interval_cases n
    rfl
  | succ fuel ih =>
    intro n hn
    match n with
    | 0 => rfl
    | m + 1 =>
      show ofLE ((m + 1) % 10 :: natDigitsAux fuel ((m + 1) / 10)) = m + 1
      have hdiv : (m + 1) / 10 ≤ fuel := by
        have h10 : (1 : Nat) < 10 := by omega
        have := Nat.div_lt_self (Nat.succ_pos m) h10
        omega
      show (m + 1) % 10 + 10 * ofLE (natDigitsAux fuel ((m + 1) / 10)) = m + 1
      rw [ih _ hdiv]
      omega

theorem natDigitsAux_lt10 (fuel : Nat) :
    ∀ n d : Nat, d ∈ natDigitsAux fuel n → d < 10 := by
  induction fuel with
  | zero => intro n d hd; simp [natDigitsAux] at hd
  | succ fuel ih =>
    intro n d hd
    match n with
    | 0 => simp [natDigitsAux] at hd
    | m + 1 =>
      rcases List.mem_cons.mp hd with h | h
      · subst h; exact Nat.mod_lt _ (by omega)
      · exact ih _ d h

theorem ofLE_natDigits (n : Nat) : ofLE (natDigits n) = n :=
  ofLE_natDigitsAux n n le_rfl

theorem natDigits_lt10 {n d : Nat} (hd : d ∈ natDigits n) : d < 10 :=
  natDigitsAux_lt10 n n d hd

theorem charVal_digitChar (d : Nat) (h : d < 10) : (digitChar d).toNat - 48 = d := by
  interval_cases d <;> decide

theorem digitChar_ne_dash (d : Nat) (h : d < 10) : digitChar d ≠ '-' := by
  interval_cases d <;> decide

theorem foldl_digitChars (ds : List Nat) (h : ∀ d ∈ ds, d < 10) :
    ∀ acc : Nat, ((ds.map digitChar).reverse).foldl (fun a c => 10 * a + (c.toNat - 48)) acc
      = acc * 10 ^ ds.length + ofLE ds := by
  induction ds with
  | nil => intro acc; simp [ofLE]
  | cons d ds ih =>
    intro acc
    have hd : d < 10 := h d (by simp)
    have hds : ∀ x ∈ ds, x < 10 := fun x hx => h x (by simp [hx])
    simp only [List.map_cons, List.reverse_cons, List.foldl_append, ih hds,
      List.foldl_cons, List.foldl_nil]
    rw [charVal_digitChar d hd]
    show 10 * (acc * 10 ^ ds.length + ofLE ds) + d = acc * 10 ^ (ds.length + 1) + ofLE (d :: ds)
    show 10 * (acc * 10 ^ ds.length + ofLE ds) + d = acc * 10 ^ (ds.length + 1) + (d + 10 * ofLE ds)
    rw [pow_succ]
    ring

theorem foldl_pad_zeros (k : Nat) (l : List Char) :
    (List.replicate k '0' ++ l).foldl (fun a c => 10 * a + (c.toNat - 48)) 0
      = l.foldl (fun a c => 10 * a + (c.toNat - 48)) 0 := by
  induction k with
  | zero => simp
  | succ k ih => simpa using ih

theorem natStr_data (n : Nat) (hn : n ≠ 0) :
    (natStr n).data = ((natDigits n).map digitChar).reverse := by
  simp [natStr, hn]

theorem strToNat_pad (k n : Nat) :
    strToNat ⟨List.replicate k '0' ++ (natStr n).data⟩ = n := by
  show (List.replicate k '0' ++ (natStr n).data).foldl
      (fun a c => 10 * a + (c.toNat - 48)) 0 = n
  rw [foldl_pad_zeros]
  by_cases hn : n = 0
  · subst hn; decide
  · rw [natStr_data n hn]
    rw [foldl_digitChars (natDigits n) (fun d hd => natDigits_lt10 hd) 0]
    simp [ofLE_natDigits]

theorem strToNat_natStr (n : Nat) : strToNat (natStr n) = n := by
  have h := strToNat_pad 0 n
  simpa using h

theorem natStr_inj {a b : Nat} (h : natStr a = natStr b) : a = b := by
  have := congrArg strToNat h
  simpa [strToNat_natStr] using this

theorem natStr_ne_dash (n : Nat) : ∀ c ∈ (natStr n).data, c ≠ '-' := by
  intro c hc
  by_cases hn : n = 0
  · subst hn; simp [natStr] at hc; subst hc; decide
  · rw [natStr_data n hn] at hc
    rw [List.mem_reverse] at hc
    rcases List.mem_map.mp hc with ⟨d, hd, hdc⟩
    subst hdc
    exact digitChar_ne_dash d (natDigits_lt10 hd)

theorem zfill_natStr_data (w n : Nat) :
    (zfill w (natStr n)).data = List.replicate (w - (natStr n).length) '0' ++ (natStr n).data := rfl

theorem zfill_natStr_ne_dash (w n : Nat) : ∀ c ∈ (zfill w (natStr n)).data, c ≠ '-' := by
  intro c hc
  rw [zfill_natStr_data] at hc
  rcases List.mem_append.mp hc with h | h
  · rw [List.eq_of_mem_replicate h]; decide
  · exact natStr_ne_dash n c h

theorem strToNat_zfill_natStr (w n : Nat) : strToNat (zfill w (natStr n)) = n :=
  strToNat_pad _ n

theorem renderBill_data (y n : Nat) :
    (renderBill y n).data =
      "TLA-".data ++ (natStr y).data ++ '-' :: (zfill 4 (natStr n)).data := by
  simp [renderBill, String.data_append]

theorem takeWhile_all_append (p : Char → Bool) (l₁ : List Char) (x : Char) (l₂ : List Char)
    (h : ∀ c ∈ l₁, p c = true) (hx : p x = false) :
    (l₁ ++ x :: l₂).takeWhile p = l₁ := by
  induction l₁ with
  | nil => simp [List.takeWhile_cons, hx]
  | cons c cs ih =>
    have hc : p c = true := h c (by simp)
    simp only [List.cons_append, List.takeWhile_cons, hc, if_true]
    rw [ih (fun d hd => h d (by simp [hd]))]

theorem lastSeg_renderBill (y n : Nat) : lastSeg (renderBill y n) = zfill 4 (natStr n) := by
  unfold lastSeg
  rw [renderBill_data]
  rw [List.reverse_append, List.reverse_append, List.reverse_cons]
  rw [List.append_assoc, List.singleton_append]
  rw [takeWhile_all_append]
  · simp
  · intro c hc
    rw [List.mem_reverse] at hc
    simpa using zfill_natStr_ne_dash 4 n c hc
  · simp

theorem isPrefixOf_append_same (a x y : List Char) :
    (a ++ x).isPrefixOf (a ++ y) = x.isPrefixOf y := by
  induction a with
  | nil => rfl
  | cons c cs ih => simp [List.isPrefixOf, ih]

theorem pre_dash_iff (c : List Char) : ∀ (a b : List Char),
    (∀ x ∈ a, x ≠ '-') → (∀ x ∈ b, x ≠ '-') →
    ((a ++ ['-']).isPrefixOf (b ++ '-' :: c) = true ↔ a = b) := by
  intro a
  induction a with
  | nil =>
    intro b _ hb
    cases b with
    | nil => simp [List.isPrefixOf]
    | cons y bs =>
      have hy : y ≠ '-' := hb y (by simp)
      simp [List.isPrefixOf, hy, Ne.symm hy]
  | cons x as ih =>
    intro b ha hb
    cases b with
    | nil =>
      have hx : x ≠ '-' := ha x (by simp)
      simp [List.isPrefixOf, hx]
    | cons y bs =>
      have has : ∀ z ∈ as, z ≠ '-' := fun z hz => ha z (by simp [hz])
      have hbs : ∀ z ∈ bs, z ≠ '-' := fun z hz => hb z (by simp [hz])
      by_cases hxy : x = y
      · subst hxy
        simp [List.isPrefixOf, ih bs has hbs]
      · simp [List.isPrefixOf, hxy]

theorem likeP_render_iff (y y' n : Nat) :
    likeP ("TLA-" ++ natStr y ++ "-") (renderBill y' n) = true ↔ y = y' := by
  unfold likeP
  rw [renderBill_data]
  have hpat : ("TLA-" ++ natStr y ++ "-").data =
      "TLA-".data ++ ((natStr y).data ++ ['-']) := by
    simp [String.data_append]
  rw [hpat]
  rw [show ("TLA-".data ++ (natStr y').data ++ '-' :: (zfill 4 (natStr n)).data : List Char)
      = "TLA-".data ++ ((natStr y').data ++ '-' :: (zfill 4 (natStr n)).data) from rfl]
  rw [isPrefixOf_append_same]
  rw [pre_dash_iff _ _ _ (natStr_ne_dash y) (natStr_ne_dash y')]
  constructor
  · intro h
    exact natStr_inj (String.ext h)
  · intro h
    subst h
    rfl

theorem parse_renderBill (y n : Nat) :
    strToNat (lastSeg (renderBill y n)) = n := by
  rw [lastSeg_renderBill]
  exact strToNat_zfill_natStr 4 n

theorem foldl_pick_ascending (l : List Sale) :
    ∀ a : Sale, l.Pairwise (fun s t => s.id < t.id) → (∀ s ∈ l, a.id < s.id) →
      l.foldl (fun acc s =>
        match acc with
        | none => some s
        | some t => if t.id < s.id then some s else some t) (some a)
      = some (l.getLast?.getD a) := by
  induction l with
  | nil => intro a _ _; rfl
  | cons s ls ih =>
    intro a hp ha
    have has : a.id < s.id := ha s (by simp)
    simp only [List.foldl_cons]
    rw [if_pos has]
    rw [ih s hp.of_cons (List.pairwise_cons.mp hp).1]
    rw [List.getLast?_cons]
    rfl

theorem lastSaleMatching_eq (sales : List Sale) (p : Sale → Bool)
    (hs : sales.Pairwise (fun s t => s.id < t.id)) :
    lastSaleMatching sales p = (sales.filter p).getLast? := by
  unfold lastSaleMatching
  have hf : (sales.filter p).Pairwise (fun s t => s.id < t.id) := hs.filter p
  cases hfl : sales.filter p with
  | nil => rfl
  | cons s ls =>
    rw [hfl] at hf
    simp only [List.foldl_cons]
    rw [foldl_pick_ascending ls s hf.of_cons (List.pairwise_cons.mp hf).1]
    rw [List.getLast?_cons]

theorem getLast?_map_parse (l : List Sale) (f : Sale → Nat) :
    (l.map f).getLast? = l.getLast?.map f := by
  induction l with
  | nil => rfl
  | cons a l ih =>
    simp only [List.map_cons, List.getLast?_cons, ih]
    cases l.getLast? <;> rfl

theorem range'_one_concat (k : Nat) :
    List.range' 1 (k + 1) = List.range' 1 k ++ [k + 1] := by
  have h := @List.range'_concat 1 1 k
  simpa [Nat.add_comm] using h

theorem getLast?_range'_one (k : Nat) :
    (List.range' 1 (k + 1)).getLast? = some (k + 1) := by
  rw [range'_one_concat]
  exact List.getLast?_concat _

/-- With the invariant in force, the generator returns exactly the next
sequence number for the year, rendered as `TLA-<year>-<zero-padded seq>`. -/
theorem generate_eq (db : DB) (h : BillInv db) (y : Nat) :
    generate_bill_no db y = renderBill y ((billSeqs db y).length + 1) := by
  obtain ⟨k, hk⟩ := h.seqs y
  unfold generate_bill_no
  dsimp only
  rw [lastSaleMatching_eq db.sales _ h.sorted]
  cases hfl : db.sales.filter (fun s => likeP ("TLA-" ++ natStr y ++ "-") s.bill_no) with
  | nil =>
    have hbs : billSeqs db y = [] := by unfold billSeqs; rw [hfl]; rfl
    rw [hbs]
    rfl
  | cons s ls =>
    have hbs : billSeqs db y = (s :: ls).map (fun t => strToNat (lastSeg t.bill_no)) := by
      unfold billSeqs; rw [hfl]
    have hlen : (billSeqs db y).length = ls.length + 1 := by rw [hbs]; simp
    have hklen : k = ls.length + 1 := by
      have h1 : (billSeqs db y).length = k := by rw [hk]; simp
      rw [hlen] at h1; exact h1.symm
    have hlast1 : (billSeqs db y).getLast? =
        some (strToNat (lastSeg (ls.getLast?.getD s).bill_no)) := by
      rw [hbs, getLast?_map_parse, List.getLast?_cons]
      rfl
    have hlast2 : (billSeqs db y).getLast? = some k := by
      rw [hk, hklen]
      exact getLast?_range'_one _
    have hparse : strToNat (lastSeg (ls.getLast?.getD s).bill_no) = k :=
      Option.some.inj (hlast1.symm.trans hlast2)
    rw [List.getLast?_cons]
    dsimp only
    rw [hparse, hlen, hklen]
    rfl

theorem billInv_same (db db' : DB) (hs : db'.sales = db.sales)
    (hn : db'.next_sale_id = db.next_sale_id) (h : BillInv db) : BillInv db' := by
  constructor
  · rw [hs]; exact h.wf
  · rw [hs, hn]; exact h.idlt
  · rw [hs]; exact h.sorted
  · intro y
    have hb : billSeqs db' y = billSeqs db y := by unfold billSeqs; rw [hs]
    rw [hb]; exact h.seqs y

/-- Appending the sale the generator just numbered preserves the invariant. -/
theorem billInv_append (db db' : DB) (s0 : Sale) (y0 : Nat) (h : BillInv db)
    (hs : db'.sales = db.sales ++ [s0])
    (hn : db'.next_sale_id = db.next_sale_id + 1)
    (hid : s0.id = db.next_sale_id)
    (hbill : s0.bill_no = generate_bill_no db y0) :
    BillInv db' := by
  have hbill' : s0.bill_no = renderBill y0 ((billSeqs db y0).length + 1) := by
    rw [hbill, generate_eq db h y0]
  constructor
  · intro s hsmem
    rw [hs] at hsmem
    rcases List.mem_append.mp hsmem with hm | hm
    · exact h.wf s hm
    · simp at hm; subst hm; exact ⟨y0, _, hbill'⟩
  · intro s hsmem
    rw [hs] at hsmem
    rw [hn]
    rcases List.mem_append.mp hsmem with hm | hm
    · have := h.idlt s hm; omega
    · simp at hm; subst hm; omega
  · rw [hs, List.pairwise_append]
    refine ⟨h.sorted, by simp, ?_⟩
    intro a ha b hb
    simp at hb; subst hb
    rw [hid]
    exact h.idlt a ha
  · intro y
    have hbs : billSeqs db' y = billSeqs db y ++
        (if likeP ("TLA-" ++ natStr y ++ "-") s0.bill_no then
          [strToNat (lastSeg s0.bill_no)] else []) := by
      unfold billSeqs
      rw [hs, List.filter_append, List.map_append]
      congr 1
      by_cases hp : likeP ("TLA-" ++ natStr y ++ "-") s0.bill_no
      · simp [hp]
      · simp [hp]
    obtain ⟨k, hk⟩ := h.seqs y
    by_cases hy : y = y0
    · subst hy
      have hp : likeP ("TLA-" ++ natStr y ++ "-") s0.bill_no = true := by
        rw [hbill']
        exact (likeP_render_iff y y _).mpr rfl
      have hparse : strToNat (lastSeg s0.bill_no) = (billSeqs db y).length + 1 := by
        rw [hbill', lastSeg_renderBill]
        exact strToNat_zfill_natStr _ _
      refine ⟨k + 1, ?_⟩
      have hlen : (billSeqs db y).length = k := by rw [hk]; simp
      rw [hbs]
      simp only [hp, if_true]
      rw [hparse, hlen, hk]
      exact (range'_one_concat k).symm
    · have hp : likeP ("TLA-" ++ natStr y ++ "-") s0.bill_no = false := by
        rw [hbill', Bool.eq_false_iff]
        intro hx
        exact hy ((likeP_render_iff y y0 _).mp hx)
      refine ⟨k, ?_⟩
      rw [hbs]
      simp only [hp, Bool.false_eq_true, if_false, List.append_nil]
      exact hk

theorem resume_cart_salesEq (db : DB) (cid : Nat) (role : Option String) (now : DateTime) :
    (resume_cart db cid role now).2.sales = db.sales ∧
    (resume_cart db cid role now).2.next_sale_id = db.next_sale_id := by
  unfold resume_cart
  by_cases hg : 15 ≤ now.hour ∧ role ≠ some "admin"
  · rw [if_pos hg]; exact ⟨rfl, rfl⟩
  · rw [if_neg hg]
    cases hf : db.carts.find? (fun c => c.id == cid) with
    | none => exact ⟨rfl, rfl⟩
    | some cart =>
      dsimp only
      by_cases hst : cart.status = "HOLD"
      · rw [if_pos hst]; exact ⟨rfl, rfl⟩
      · rw [if_neg hst]; exact ⟨rfl, rfl⟩

theorem delete_hold_salesEq (db : DB) (cid : Nat) :
    (admin_delete_hold db cid).2.sales = db.sales ∧
    (admin_delete_hold db cid).2.next_sale_id = db.next_sale_id := by
  unfold admin_delete_hold
  cases hf : db.carts.find? (fun c => c.id == cid) with
  | none => exact ⟨rfl, rfl⟩
  | some cart =>
    dsimp only
    by_cases hst : cart.status ≠ "HOLD"
    · rw [if_pos hst]; exact ⟨rfl, rfl⟩
    · rw [if_neg hst]; exact ⟨rfl, rfl⟩

theorem admin_void_sale_billInv (db : DB) (sid : Option Nat) (h : BillInv db) :
    BillInv (admin_void_sale db sid).2 := by
  unfold admin_void_sale
  rcases sid with _ | sidv
  · exact h
  · dsimp only
    cases hf : db.sales.find? (fun x => x.id == sidv) with
    | none => exact h
    | some sale =>
      dsimp only
      by_cases hv : sale.status = "VOID"
      · rw [if_pos hv]; exact h
      · rw [if_neg hv]
        have hfeq : ∀ t : Sale,
            ((if t.id == sidv then { t with status := "VOID" } else t) : Sale).bill_no
              = t.bill_no ∧
            ((if t.id == sidv then { t with status := "VOID" } else t) : Sale).id = t.id := by
          intro t; split
          · exact ⟨rfl, rfl⟩
          · exact ⟨rfl, rfl⟩
        constructor
        · intro t ht
          rcases List.mem_map.mp ht with ⟨u, hu, huf⟩
          obtain ⟨y, n, hb⟩ := h.wf u hu
          exact ⟨y, n, by rw [← huf, (hfeq u).1, hb]⟩
        · intro t ht
          rcases List.mem_map.mp ht with ⟨u, hu, huf⟩
          have hlt := h.idlt u hu
          show t.id < db.next_sale_id
          rw [← huf, (hfeq u).2]
          exact hlt
        · refine h.sorted.map _ (fun a b hab => ?_)
          rw [(hfeq a).2, (hfeq b).2]
          exact hab
        · intro y
          obtain ⟨k, hk⟩ := h.seqs y
          refine ⟨k, ?_⟩
          have hb : billSeqs { db with sales := (db.sales.map
              (fun t => if t.id == sidv then { t with status := "VOID" } else t)) } y
              = billSeqs db y := by
            unfold billSeqs
            dsimp only
            rw [List.filter_map, List.map_map]
            have h1 : db.sales.filter ((fun t => likeP ("TLA-" ++ natStr y ++ "-") t.bill_no) ∘
                (fun t => if t.id == sidv then { t with status := "VOID" } else t))
                = db.sales.filter (fun t => likeP ("TLA-" ++ natStr y ++ "-") t.bill_no) := by
              apply List.filter_congr
              intro t _
              show likeP ("TLA-" ++ natStr y ++ "-")
                ((if t.id == sidv then { t with status := "VOID" } else t) : Sale).bill_no
                = likeP ("TLA-" ++ natStr y ++ "-") t.bill_no
              rw [(hfeq t).1]
            rw [h1]
            apply List.map_congr_left
            intro t _
            show strToNat (lastSeg
              ((if t.id == sidv then { t with status := "VOID" } else t) : Sale).bill_no)
              = strToNat (lastSeg t.bill_no)
            rw [(hfeq t).1]
          rw [hb]
          exact hk

theorem billInv_checkout (db : DB) (d : CheckoutReq) (now : DateTime) (h : BillInv db) :
    BillInv (checkout db d now).2 := by
  unfold checkout
  rcases hcid : d.cart_id with _ | cid
  · exact h
  · by_cases hz : cid = 0
    · simp only [hz, if_true]; exact h
    · simp only [hz, if_false]
      by_cases hemp : (db.cart_items.filter (fun i => i.cart_id == cid)).isEmpty
      · simp only [hemp, if_true]; exact h
      · rw [Bool.not_eq_true] at hemp
        simp only [hemp, Bool.false_eq_true, if_false]
        exact billInv_append db _ _ now.year h rfl rfl rfl rfl

theorem reachable_billInv (db : DB) (h : Reachable db) : BillInv db := by
  induction h with
  | init =>
    constructor
    · intro s hsm; simp [initDB] at hsm
    · intro s hsm; simp [initDB] at hsm
    · simp [initDB]
    · intro y; exact ⟨0, by unfold billSeqs; simp [initDB]⟩
  | @step db0 op hprev ih =>
    cases op with
    | createCart sid now => exact billInv_same db0 _ rfl rfl ih
    | addToCart cid mid cp cn => exact billInv_same db0 _ rfl rfl ih
    | holdCart cid nm ph =>
      rcases cid with _ | c
      · exact billInv_same db0 _ rfl rfl ih
      · exact billInv_same db0 _ rfl rfl ih
    | resumeCart cid role now =>
      exact billInv_same db0 _ (resume_cart_salesEq db0 cid role now).1
        (resume_cart_salesEq db0 cid role now).2 ih
    | doCheckout d now => exact billInv_checkout db0 d now ih
    | voidSale sid => exact admin_void_sale_billInv db0 sid ih
    | deleteHold cid =>
      exact billInv_same db0 _ (delete_hold_salesEq db0 cid).1
        (delete_hold_salesEq db0 cid).2 ih

/-- C4: in every reachable state, the year-`y` bill sequence numbers in
issuance order read exactly `1, 2, …, k` — strictly increasing, with no
gaps and no duplicates, starting at `0001` — and `generate_bill_no`
returns `"TLA-" ++ y ++ "-" ++ NNNN` where `NNNN` is the zero-padded
(width ≥ 4) decimal for `k + 1`, one greater than the highest sequence
already issued for that year's prefix (1 when the year has no sale).
Sequential issuance is the shallow embedding of the code's execution
model; concurrent interleavings are outside it. -/
theorem generate_bill_no_spec (db : DB) (h : Reachable db) (y : Nat) :
    billSeqs db y = List.range' 1 ((billSeqs db y).length) ∧
    generate_bill_no db y =
      "TLA-" ++ natStr y ++ "-" ++ zfill 4 (natStr ((billSeqs db y).length + 1)) := by
  have hb := reachable_billInv db h
  obtain ⟨k, hk⟩ := hb.seqs y
  have hlen : (billSeqs db y).length = k := by rw [hk]; simp
  constructor
  · rw [hlen, hk]
  · rw [generate_eq db hb y]
    rfl

theorem generate_bill_no_spec_witness :
    billSeqs dbT5 2024 = [1, 2] ∧
    generate_bill_no dbT5 2024 = "TLA-2024-0003" ∧
    (billSeqs dbT5 2024 = List.range' 1 ((billSeqs dbT5 2024).length) ∧
      generate_bill_no dbT5 2024 =
        "TLA-" ++ natStr 2024 ++ "-" ++ zfill 4 (natStr ((billSeqs dbT5 2024).length + 1))) :=
  ⟨by decide, by decide,
   generate_bill_no_spec dbT5
     (Reachable.step (Op.doCheckout reqT nowD)
       (Reachable.step (Op.addToCart 1 (some 2) none none)
         (Reachable.step (Op.doCheckout reqT nowD)
           (Reachable.step (Op.addToCart 1 (some 1) none none)
             (Reachable.step (Op.createCart (some 5) nowD) Reachable.init)))))
     2024⟩

theorem resume_held_no_expiry_spec_witness :
    (resume_cart dbC6 1 (some "staff") now6).1 =
      Except.ok { cart_id := cartC6.id, customer_name := cartC6.customer_name,
                  customer_phone := cartC6.customer_phone } ∧
    (resume_cart dbC6 1 (some "staff") now6).2.carts =
      dbC6.carts.map (fun x => if x.id == 1 then { x with status := "ACTIVE" } else x) :=
  ((resume_held_no_expiry_spec dbC6 1 (some "staff") (some 5) now6).2 (by decide)).1
    cartC6 (by decide) rfl

end POS
